import Mathlib

/-!
Shallow embedding of the data-access layer (class `DAO`, src/unnamed/part_000) of the
iv1201-server repository: the person repository, the application submission workflow and
the optimistic-concurrency status update, together with the validator helpers they call
(src/src/util/validators.js).  The database is a record of lists of rows; every DAO method
becomes a function from a database state (and its arguments) to a new state and a result.
JavaScript exceptions are values of an explicit error type.
-/

namespace IV1201

/-- A row of the `person` table.  Fields follow the Sequelize model referenced by the DAO
(person_id surrogate key, identity fields, stored credential, role). -/
structure PersonRow where
  person_id : Nat
  name : String
  surname : String
  ssn : String
  email : String
  password : String
  role_id : Nat
  username : String
  deriving Repr, DecidableEq

/-- A row of the `competence_profile` table: (person, competence) with years_of_experience. -/
structure CompetenceProfileRow where
  person_id : Nat
  competence_id : Nat
  years_of_experience : Nat
  deriving Repr, DecidableEq

/-- A row of the `availability` table: one applied-for period with review status and the
optimistic version counter. -/
structure AvailabilityRow where
  availability_id : Nat
  person_id : Nat
  from_date : String
  to_date : String
  application_status : String
  version_number : Nat
  deriving Repr, DecidableEq

/-- The database state seen by the DAO: the three tables the claims are about, plus the
auto-increment counters for the surrogate keys. -/
structure DB where
  persons : List PersonRow
  competenceProfiles : List CompetenceProfileRow
  availabilities : List AvailabilityRow
  nextPersonId : Nat
  nextAvailabilityId : Nat
  deriving Repr, DecidableEq

/-- JavaScript exception values thrown by the DAO code: `error` is `new Error(msg)` (also
covers AssertionError from the validators), `typeError` is the runtime TypeError raised by
destructuring or reading a property of `null`, and `referenceError` is the runtime
ReferenceError raised by evaluating an undefined identifier. -/
inductive JsError where
  | error (msg : String)
  | typeError (msg : String)
  | referenceError (msg : String)
  deriving Repr, DecidableEq

/-- `error.message` of a JavaScript exception, used by the DAO catch blocks when rewrapping. -/
def JsError.message : JsError → String
  | .error m => m
  | .typeError m => m
  | .referenceError m => m

namespace Validators

/-- `validator.isAlphanumeric` accepts exactly the ASCII letters and digits. -/
def isAlphanumericChar (c : Char) : Bool :=
  c.isAlpha || c.isDigit

/-- `Validators.isStringNonZeroLength` (validators.js): true when the string is non-empty. -/
def isStringNonZeroLength (s : String) : Bool :=
  !(s.isEmpty)

/-- `Validators.isAlphanumericString` (validators.js): non-empty and all characters
letters or digits (the `^[0-9A-Z]+$/i` check of `validator.isAlphanumeric`). -/
def isAlphanumericString (s : String) : Bool :=
  !(s.isEmpty) && s.toList.all isAlphanumericChar

end Validators

namespace DAO

/-- The dynamic lookup keys the claims exercise through `findPersonByParameter`. -/
inductive AuthKey where
  | username
  | email
  deriving Repr, DecidableEq

/-- The `where {[key]: param}` filter of `DAO.findPersonByParameter`. -/
def keyMatches (key : AuthKey) (value : String) (p : PersonRow) : Bool :=
  match key with
  | .username => p.username == value
  | .email => p.email == value

/-- `DAO.findPersonByParameter` (part_000 lines 77-91): `Person.findOne` on one column,
null when no row matches.  The returned DTO (dtoFactory is not under src/) carries the
row fields the callers read, so the row itself stands for it.  The query itself cannot
fail in this model, so the catch-and-wrap branch is unreachable. -/
def findPersonByParameter (db : DB) (key : AuthKey) (value : String) : Option PersonRow :=
  db.persons.find? (keyMatches key value)

/-- `DAO.findPersonByUsername` (part_000 lines 127-131): validator guards, then the
single-column lookup.  A validator failure is a thrown AssertionError. -/
def findPersonByUsername (db : DB) (username : String) : Except JsError (Option PersonRow) :=
  if !(Validators.isStringNonZeroLength username) then
    .error (.error "username needs to have non-zero length.")
  else if !(Validators.isAlphanumericString username) then
    .error (.error "username needs to only contain letters and numbers.")
  else
    .ok (findPersonByParameter db .username username)

/-- The authentication object handed to `DAO.findPersonIdByAuth`; each field may be absent. -/
structure Auth where
  username : Option String
  email : Option String
  deriving Repr, DecidableEq

/-- JavaScript truthiness of `auth.username` / `auth.email`: absent and the empty string
are falsy. -/
def truthy : Option String → Bool
  | none => false
  | some s => !(s.isEmpty)

/-- `DAO.findPersonIdByAuth` (part_000 lines 140-147).  There is no try/catch in this
method.  When neither key is truthy, the source line 146 is
`throw new Error("could not find person." + error.message)` in a scope with no `error`
binding, so evaluating `error.message` raises a bare ReferenceError before any Error is
built.  When the lookup returns null, `const \x7bperson_id\x7d = null` raises a bare
TypeError. -/
def findPersonIdByAuth (db : DB) (auth : Auth) : Except JsError Nat :=
  let kv : Option (AuthKey × String) :=
    if truthy auth.username then some (.username, auth.username.getD "")
    else if truthy auth.email then some (.email, auth.email.getD "")
    else none
  match kv with
  | some (key, value) =>
    match findPersonByParameter db key value with
    | none => .error (.typeError "Cannot destructure property person_id of null")
    | some p => .ok p.person_id
  | none => .error (.referenceError "error is not defined")

/-- The person record handed to `DAO.savePerson`; the caller may or may not supply a
`role_id` member, which the spread `\x7b...person, role_id: 2\x7d` overrides either way. -/
structure PersonInput where
  name : String
  surname : String
  ssn : String
  email : String
  password : String
  username : String
  role_id : Option Nat
  deriving Repr, DecidableEq

/-- `DAO.savePerson` (part_000 lines 157-165): overrides `role_id` with 2, then
`Person.create`.  Modelled from the spec: the Person model file is not under src/; the
spec declares email and username unique, so `create` fails on a collision, which the
catch block wraps as "Could not create person.". -/
def savePerson (db : DB) (person : PersonInput) : DB × Except JsError String :=
  let forced : Nat := 2
  if db.persons.any (fun p => p.username == person.username || p.email == person.email) then
    (db, .error (.error ("Could not create person." ++ "Validation error")))
  else
    let row : PersonRow :=
      { person_id := db.nextPersonId, name := person.name, surname := person.surname,
        ssn := person.ssn, email := person.email, password := person.password,
        role_id := forced, username := person.username }
    ({ db with persons := db.persons ++ [row], nextPersonId := db.nextPersonId + 1 },
     .ok "success")

/-- The record returned by `DAO.login`: the `attributes` clause of the query fetches only
`username`, `email` and `role_id`, so the DTO built from the fetched model (dtoFactory is
not under src/; modelled from the spec, DTO assembly only reshapes fetched rows) can carry
nothing else. -/
structure LoginDto where
  username : String
  email : String
  role_id : Nat
  deriving Repr, DecidableEq

/-- `DAO.login` (part_000 lines 205-221): `Person.findOne` on the exact username+password
pair with `attributes: ["username", "email", "role_id"]`; null when no row matches. -/
def login (db : DB) (person_username person_password : String) : Option LoginDto :=
  match db.persons.find? (fun p => p.username == person_username &&
      p.password == person_password) with
  | none => none
  | some p => some { username := p.username, email := p.email, role_id := p.role_id }

/-- `Availability.findByPk` with `attributes: ["version_number"]` (part_000 line 345):
primary-key lookup in the availability table. -/
def availabilityFindByPk (db : DB) (availability_id : Nat) : Option AvailabilityRow :=
  db.availabilities.find? (fun r => r.availability_id == availability_id)

/-- `Availability.update({application_status, version_number}, \x7bwhere: \x7bavailability_id\x7d\x7d)`
(part_000 lines 350-357): the WHERE clause names only the id — the presented version is
not part of the condition. -/
def availabilityWrite (db : DB) (availability_id : Nat) (application_status : String)
    (version_number : Nat) : DB :=
  { db with availabilities := db.availabilities.map (fun r =>
      if r.availability_id == availability_id then
        { r with application_status := application_status, version_number := version_number }
      else r) }

/-- `DAO.updateApplication` (part_000 lines 343-362), as one sequential call: read the
current version by primary key, compare with the caller-supplied version, and on a match
write the new status together with `version_number + 1`.  A null read makes line 346 read
`version_number` of null (bare TypeError, then wrapped by the catch); a mismatch throws
"Version number expired. Current version: ..." which the catch rewraps with the
"Could not update application" operation prefix. -/
def updateApplication (db : DB) (availability_id : Nat) (application_status : String)
    (version_number : Nat) : DB × Except JsError String :=
  match availabilityFindByPk db availability_id with
  | none =>
    (db, .error (.error ("Could not update application" ++
      "Cannot read properties of null (reading version_number)")))
  | some currentVersion =>
    if currentVersion.version_number != version_number then
      (db, .error (.error ("Could not update application" ++
        "Version number expired. Current version: " ++
        toString currentVersion.version_number)))
    else
      let nextVersionNumber := version_number + 1
      (availabilityWrite db availability_id application_status nextVersionNumber,
       .ok "success")

/-- The argument record of one `DAO.updateApplication` call. -/
structure UpdateCall where
  availability_id : Nat
  application_status : String
  version_number : Nat
  deriving Repr, DecidableEq

/-- Equality of call results is decidable (needed to evaluate executions on concrete
inputs). -/
instance {ε α : Type} [DecidableEq ε] [DecidableEq α] : DecidableEq (Except ε α) :=
  fun a b =>
  match a, b with
  | .error x, .error y =>
    if h : x = y then isTrue (by rw [h]) else isFalse (by simp [h])
  | .error _, .ok _ => isFalse (by simp)
  | .ok _, .error _ => isFalse (by simp)
  | .ok x, .ok y =>
    if h : x = y then isTrue (by rw [h]) else isFalse (by simp [h])

/-- Progress of one in-flight `updateApplication` call, split at its awaits: before the
`findByPk` read; after the read with the snapshot it returned; finished with a result.
The synchronous version check and the dispatch of the write are kept in one atomic step
(coarser than the source, hence favourable to it: the source also awaits between check
and write completion). -/
inductive UpdateProc where
  | start
  | readDone (current : Option AvailabilityRow)
  | done (result : Except JsError String)
  deriving Repr, DecidableEq

/-- One atomic step of an in-flight `updateApplication` call against the shared database. -/
def stepUpdate (db : DB) (call : UpdateCall) : UpdateProc → DB × UpdateProc
  | .start => (db, .readDone (availabilityFindByPk db call.availability_id))
  | .readDone none =>
    (db, .done (.error (.error ("Could not update application" ++
      "Cannot read properties of null (reading version_number)"))))
  | .readDone (some currentVersion) =>
    if currentVersion.version_number != call.version_number then
      (db, .done (.error (.error ("Could not update application" ++
        "Version number expired. Current version: " ++
        toString currentVersion.version_number))))
    else
      (availabilityWrite db call.availability_id call.application_status
        (call.version_number + 1),
       .done (.ok "success"))
  | .done r => (db, .done r)

/-- Two concurrent `updateApplication` calls interleaved by a schedule: `true` steps the
first call, `false` the second.  Returns the final database and both call states. -/
def runTwoUpdates (db : DB) (a b : UpdateCall) (sched : List Bool) :
    DB × UpdateProc × UpdateProc :=
  sched.foldl (fun s pick =>
    if pick then
      let r := stepUpdate s.1 a s.2.1
      (r.1, r.2, s.2.2)
    else
      let r := stepUpdate s.1 b s.2.2
      (r.1, s.2.1, r.2)) (db, .start, .start)

/-- One element of the `competencies` argument of `DAO.submitApplication`. -/
structure Competency where
  competence_id : Nat
  years_of_experience : Nat
  deriving Repr, DecidableEq

/-- One element of the `periods` argument of `DAO.submitApplication`. -/
structure Period where
  from_date : String
  to_date : String
  deriving Repr, DecidableEq

/-- A row handed to `Availability.bulkCreate` by `submitApplication` (part_000 lines
239-241): the period fields plus `version_number: 0`; the id and the status default are
filled in by the table. -/
structure AvailabilityInsert where
  person_id : Nat
  from_date : String
  to_date : String
  version_number : Nat
  deriving Repr, DecidableEq

/-- `CompetenceProfile.bulkCreate(rows, {ignoreDuplicates: true})` (part_000 lines
243-246): insert each row unless a row with the same (person_id, competence_id) composite
key already exists, in which case that row is skipped, not errored. -/
def competenceProfileBulkCreate (db : DB) (rows : List CompetenceProfileRow) : DB :=
  rows.foldl (fun acc r =>
    if acc.competenceProfiles.any (fun e =>
        e.person_id == r.person_id && e.competence_id == r.competence_id) then
      acc
    else
      { acc with competenceProfiles := acc.competenceProfiles ++ [r] }) db

/-- `CompetenceProfile.update({years_of_experience}, \x7bwhere: \x7bperson_id, competence_id\x7d\x7d)`
(part_000 lines 250-258): overwrite the experience value of every matching row. -/
def competenceProfileUpdateExperience (db : DB) (person_id competence_id
    years_of_experience : Nat) : DB :=
  { db with competenceProfiles := db.competenceProfiles.map (fun e =>
      if e.person_id == person_id && e.competence_id == competence_id then
        { e with years_of_experience := years_of_experience }
      else e) }

/-- `Availability.bulkCreate` (part_000 line 262): append one availability row per insert,
assigning the auto-increment id.  Modelled from the spec: the Availability model file is
not under src/; the spec gives the column default `application_status = "unhandled"` for
newly inserted rows ("Insert one Availability row per submitted period with
version_number = 0 and an initial unhandled status"). -/
def availabilityBulkCreate (db : DB) (rows : List AvailabilityInsert) : DB :=
  rows.foldl (fun acc r =>
    { acc with
      availabilities := acc.availabilities ++
        [{ availability_id := acc.nextAvailabilityId, person_id := r.person_id,
           from_date := r.from_date, to_date := r.to_date,
           application_status := "unhandled", version_number := r.version_number }],
      nextAvailabilityId := acc.nextAvailabilityId + 1 }) db

/-- `DAO.submitApplication` (part_000 lines 231-270).  The username lookup, the profile
bulk insert and the availability bulk insert are awaited inside the transaction; a
failure among them reaches the catch block, which rolls the transaction back (the
returned state is the original database) and wraps the message.  The per-row experience
updates of lines 248-260 are fired inside `.map(async ...)` and never awaited, and the
`t.commit()` of line 263 is not awaited either: whether update number i completes inside
the transaction (rather than failing, or reaching the connection after the commit) is
decided by the runtime scheduler, modelled by the oracle `updOk`; the method observes
neither outcome and returns "success" regardless. -/
def submitApplication (db : DB) (username : String) (competencies : List Competency)
    (periods : List Period) (updOk : Nat → Bool) : DB × Except JsError String :=
  match findPersonByUsername db username with
  | .error e =>
    (db, .error (.error ("Failed to submit application." ++ e.message)))
  | .ok none =>
    (db, .error (.error ("Failed to submit application." ++
      "Cannot destructure property person_id of null")))
  | .ok (some person) =>
    let person_id := person.person_id
    let competenceProfiles : List CompetenceProfileRow := competencies.map (fun c =>
      { person_id := person_id, competence_id := c.competence_id,
        years_of_experience := c.years_of_experience })
    let availabilities : List AvailabilityInsert := periods.map (fun p =>
      { person_id := person_id, from_date := p.from_date, to_date := p.to_date,
        version_number := 0 })
    let t1 := competenceProfileBulkCreate db competenceProfiles
    let t2 := competenceProfiles.enum.foldl (fun acc ir =>
      if updOk ir.1 then
        competenceProfileUpdateExperience acc ir.2.person_id ir.2.competence_id
          ir.2.years_of_experience
      else acc) t1
    let t3 := availabilityBulkCreate t2 availabilities
    (t3, .ok "success")

end DAO

/-- A registered applicant used by the concrete sample databases below. -/
def personAlice : PersonRow :=
  { person_id := 1, name := "Alice", surname := "Ant", ssn := "19900101",
    email := "alice@kth.se", password := "secret", role_id := 2, username := "alice" }

/-- An availability row at version 0, used by the concrete sample databases below. -/
def rowJan : AvailabilityRow :=
  { availability_id := 1, person_id := 1, from_date := "2024-01-01",
    to_date := "2024-01-10", application_status := "unhandled", version_number := 0 }

/-- Sample database: one applicant, one availability at version 0. -/
def dbOneAvailability : DB :=
  { persons := [personAlice], competenceProfiles := [], availabilities := [rowJan],
    nextPersonId := 2, nextAvailabilityId := 2 }

/-- Sample database: one applicant, one availability already advanced to version 1. -/
def dbAdvancedAvailability : DB :=
  { persons := [personAlice], competenceProfiles := [],
    availabilities := [{ rowJan with application_status := "accepted",
                                     version_number := 1 }],
    nextPersonId := 2, nextAvailabilityId := 2 }

/-- Sample database: one applicant who already holds competence 3 with 5 years of
experience. -/
def dbWithProfile : DB :=
  { persons := [personAlice],
    competenceProfiles := [{ person_id := 1, competence_id := 3,
                             years_of_experience := 5 }],
    availabilities := [], nextPersonId := 2, nextAvailabilityId := 1 }

/-- Sample database: one applicant, nothing submitted yet. -/
def dbJustAlice : DB :=
  { persons := [personAlice], competenceProfiles := [], availabilities := [],
    nextPersonId := 2, nextAvailabilityId := 1 }

/-- Sample database with no rows at all. -/
def dbEmpty : DB :=
  { persons := [], competenceProfiles := [], availabilities := [],
    nextPersonId := 1, nextAvailabilityId := 1 }

/-- The state `dbJustAlice` reaches after a successful submission of one competency
(competence 3, 2 years) and one period. -/
def dbAliceSubmitted : DB :=
  { persons := [personAlice],
    competenceProfiles := [{ person_id := 1, competence_id := 3,
                             years_of_experience := 2 }],
    availabilities := [rowJan], nextPersonId := 2, nextAvailabilityId := 2 }

end IV1201

open IV1201 IV1201.DAO

theorem find?_after_availabilityWrite (l : List AvailabilityRow) (id : Nat) (st : String)
    (v : Nat) :
    (l.map (fun r => if r.availability_id == id then
        { r with application_status := st, version_number := v } else r)).find?
      (fun r => r.availability_id == id) =
    (l.find? (fun r => r.availability_id == id)).map
      (fun r => { r with application_status := st, version_number := v }) := by
  rw [List.find?_map]
  have hp : ((fun r : AvailabilityRow => r.availability_id == id) ∘ fun r =>
      if r.availability_id == id then
        { r with application_status := st, version_number := v } else r) =
      (fun r : AvailabilityRow => r.availability_id == id) := by
    funext r
    by_cases h : r.availability_id = id
    · simp [h]
    · simp [h]
  rw [hp]
  cases hfind : l.find? (fun r => r.availability_id == id) with
  | none => rfl
  | some r =>
    have hr := List.find?_some hfind
    simp [hr]
    intro hn
    exact absurd (by simpa using hr) hn

/-- C1: for every availability row and every `updateApplication` call whose supplied
version_number equals the row's current one, the call succeeds, writes the new
application_status and sets version_number to exactly the old value plus 1; and a call
can only succeed when the versions match, so no successful status update changes
version_number by any other amount. -/
theorem C1_matching_version_update_increments_by_one (db : DB) (availability_id : Nat)
    (application_status : String) (version_number : Nat) (row : AvailabilityRow)
    (hfind : availabilityFindByPk db availability_id = some row) :
    (row.version_number = version_number →
      (updateApplication db availability_id application_status version_number).2 =
        .ok "success" ∧
      availabilityFindByPk
          (updateApplication db availability_id application_status version_number).1
          availability_id =
        some { row with application_status := application_status,
                        version_number := row.version_number + 1 }) ∧
    ((updateApplication db availability_id application_status version_number).2 =
        .ok "success" → row.version_number = version_number) := by
  unfold updateApplication
  rw [hfind]
  by_cases hv : row.version_number = version_number
  · have hb : (row.version_number != version_number) = false := by simp [hv]
    simp only [hb, Bool.false_eq_true, if_false]
    constructor
    · intro _
      refine ⟨by trivial, ?_⟩
      unfold availabilityFindByPk availabilityWrite
      dsimp only
      rw [find?_after_availabilityWrite]
      unfold availabilityFindByPk at hfind
      rw [hfind, hv]
      rfl
    · intro _
      exact hv
  · have hb : (row.version_number != version_number) = true := by
      simpa using hv
    simp [hb, hv]

/-- C1 at a concrete input: on `dbOneAvailability` (row 1 at version 0), updating with
version 0 succeeds and the row ends at version 1 with the new status. -/
theorem C1_concrete :
    (updateApplication dbOneAvailability 1 "accepted" 0).2 = .ok "success" ∧
    availabilityFindByPk (updateApplication dbOneAvailability 1 "accepted" 0).1 1 =
      some { rowJan with application_status := "accepted",
                         version_number := rowJan.version_number + 1 } :=
  (C1_matching_version_update_increments_by_one dbOneAvailability 1 "accepted" 0 rowJan
    (by decide)).1 (by decide)

/-- C2: when the row exists but the supplied version_number differs from the stored one,
`updateApplication` fails with the version-conflict error naming the current server-side
version, and the returned state is the untouched input state. -/
theorem C2_stale_version_rejected_without_mutation (db : DB) (availability_id : Nat)
    (application_status : String) (version_number : Nat) (row : AvailabilityRow)
    (hfind : availabilityFindByPk db availability_id = some row)
    (hv : row.version_number ≠ version_number) :
    updateApplication db availability_id application_status version_number =
      (db, .error (.error ("Could not update application" ++
        "Version number expired. Current version: " ++
        toString row.version_number))) := by
  unfold updateApplication
  rw [hfind]
  have hb : (row.version_number != version_number) = true := by simpa using hv
  simp [hb]

/-- C2 at a concrete input: on `dbAdvancedAvailability` (row 1 at version 1), updating
with the stale version 0 fails naming version 1 and leaves the state unchanged. -/
theorem C2_concrete :
    updateApplication dbAdvancedAvailability 1 "rejected" 0 =
      (dbAdvancedAvailability, .error (.error ("Could not update application" ++
        "Version number expired. Current version: " ++ toString 1))) :=
  C2_stale_version_rejected_without_mutation dbAdvancedAvailability 1 "rejected" 0
    { rowJan with application_status := "accepted", version_number := 1 }
    (by decide) (by decide)

/-- C3 fails on the code: the write of `updateApplication` is not conditioned on the
version (its WHERE names only the id), so under the interleaving read-A, read-B,
write-A, write-B both racing calls — presenting the same original version 0 — return
"success", where the claim requires exactly one success and one VersionConflict.  The
final row holds version 1 written twice, the second write silently overwriting the
first. -/
theorem C3_counterexample_race_both_updaters_succeed :
    (runTwoUpdates dbOneAvailability ⟨1, "accepted", 0⟩ ⟨1, "rejected", 0⟩
        [true, false, true, false]).2 =
      (.done (.ok "success"), .done (.ok "success")) ∧
    (runTwoUpdates dbOneAvailability ⟨1, "accepted", 0⟩ ⟨1, "rejected", 0⟩
        [true, false, true, false]).1.availabilities =
      [{ rowJan with application_status := "rejected", version_number := 1 }] := by
  decide

/-- C4 fails on the code: in `submitApplication` the per-row experience updates are fired
without being awaited (part_000 lines 248-260) and the commit is not conditioned on their
outcome, so a submission one of whose steps fails is not rolled back: on `dbWithProfile`
(alice already holds competence 3 with 5 years) a submission of (competence 3, 7 years)
plus one period, under a schedule where the experience update is lost, still returns
"success" and commits the availability row while the submission's experience value 7 is
nowhere — a partially applied submission, where the claim requires all-or-nothing. -/
theorem C4_counterexample_commit_despite_failed_step :
    (submitApplication dbWithProfile "alice" [⟨3, 7⟩] [⟨"2024-01-01", "2024-01-10"⟩]
        (fun _ => false)).2 = .ok "success" ∧
    (submitApplication dbWithProfile "alice" [⟨3, 7⟩] [⟨"2024-01-01", "2024-01-10"⟩]
        (fun _ => false)).1.competenceProfiles =
      [{ person_id := 1, competence_id := 3, years_of_experience := 5 }] ∧
    (submitApplication dbWithProfile "alice" [⟨3, 7⟩] [⟨"2024-01-01", "2024-01-10"⟩]
        (fun _ => false)).1.availabilities.length = 1 := by
  decide

/-- C5: submitting an application whose (well-formed) username resolves to no person makes
`submitApplication` fail — the null lookup result is destructured, the thrown error is
caught, the transaction rolled back and the message wrapped — and the returned state is
the untouched input database: no rows are written to any table. -/
theorem C5_unknown_username_fails_and_writes_nothing (db : DB) (username : String)
    (competencies : List Competency) (periods : List Period) (updOk : Nat → Bool)
    (hvalid : Validators.isAlphanumericString username = true)
    (habsent : findPersonByParameter db .username username = none) :
    submitApplication db username competencies periods updOk =
      (db, .error (.error ("Failed to submit application." ++
        "Cannot destructure property person_id of null"))) := by
  have hnz : Validators.isStringNonZeroLength username = true := by
    unfold Validators.isAlphanumericString at hvalid
    unfold Validators.isStringNonZeroLength
    exact ((Bool.and_eq_true _ _).mp hvalid).1
  unfold submitApplication findPersonByUsername
  rw [hnz, hvalid, habsent]
  rfl

/-- C5 at a concrete input: submitting for the unknown username "bob" on the empty
database fails with the wrapped lookup error and leaves the database untouched. -/
theorem C5_concrete :
    Validators.isAlphanumericString "bob" = true ∧
    findPersonByParameter dbEmpty .username "bob" = none ∧
    submitApplication dbEmpty "bob" [] [] (fun _ => true) =
      (dbEmpty, .error (.error ("Failed to submit application." ++
        "Cannot destructure property person_id of null"))) :=
  ⟨by decide, by decide,
    C5_unknown_username_fails_and_writes_nothing dbEmpty "bob" [] [] (fun _ => true)
      (by decide) (by decide)⟩

/-- C6 fails on the code: resubmitting the same (person, competence) pair with a new
experience value relies on the fire-and-forget update loop of part_000 lines 248-260;
under a schedule where that update is lost (it is never awaited, and the unawaited commit
can overtake it), the second submission returns "success" yet the single CompetenceProfile
row keeps the OLD value 5 instead of the latest value 7 required by the claim. -/
theorem C6_counterexample_resubmitted_value_lost :
    (submitApplication (submitApplication dbJustAlice "alice" [⟨3, 5⟩] []
        (fun _ => true)).1 "alice" [⟨3, 7⟩] [] (fun _ => false)).2 = .ok "success" ∧
    (submitApplication (submitApplication dbJustAlice "alice" [⟨3, 5⟩] []
        (fun _ => true)).1 "alice" [⟨3, 7⟩] [] (fun _ => false)).1.competenceProfiles =
      [{ person_id := 1, competence_id := 3, years_of_experience := 5 }] := by
  decide

theorem competenceProfileBulkCreate_preserves_availabilities
    (rows : List CompetenceProfileRow) (db : DB) :
    (competenceProfileBulkCreate db rows).availabilities = db.availabilities ∧
    (competenceProfileBulkCreate db rows).nextAvailabilityId = db.nextAvailabilityId := by
  induction rows generalizing db with
  | nil => exact ⟨rfl, rfl⟩
  | cons r rows ih =>
    have hstep : competenceProfileBulkCreate db (r :: rows) =
        competenceProfileBulkCreate
          (if db.competenceProfiles.any (fun e =>
              e.person_id == r.person_id && e.competence_id == r.competence_id) then db
           else { db with competenceProfiles := db.competenceProfiles ++ [r] })
          rows := rfl
    rw [hstep]
    by_cases h : db.competenceProfiles.any (fun e =>
        e.person_id == r.person_id && e.competence_id == r.competence_id) = true
    · rw [if_pos h]
      exact ih db
    · rw [if_neg h]
      exact ih _

theorem updateLoop_preserves_availabilities (l : List (Nat × CompetenceProfileRow))
    (updOk : Nat → Bool) (db : DB) :
    (l.foldl (fun acc ir =>
        if updOk ir.1 then
          competenceProfileUpdateExperience acc ir.2.person_id ir.2.competence_id
            ir.2.years_of_experience
        else acc) db).availabilities = db.availabilities ∧
    (l.foldl (fun acc ir =>
        if updOk ir.1 then
          competenceProfileUpdateExperience acc ir.2.person_id ir.2.competence_id
            ir.2.years_of_experience
        else acc) db).nextAvailabilityId = db.nextAvailabilityId := by
  induction l generalizing db with
  | nil => exact ⟨rfl, rfl⟩
  | cons a l ih =>
    rw [List.foldl_cons]
    rcases ih (if updOk a.1 then competenceProfileUpdateExperience db a.2.person_id
        a.2.competence_id a.2.years_of_experience else db) with ⟨h1, h2⟩
    constructor
    · rw [h1]
      by_cases h : updOk a.1 = true
      · rw [if_pos h]
        rfl
      · rw [if_neg h]
    · rw [h2]
      by_cases h : updOk a.1 = true
      · rw [if_pos h]
        rfl
      · rw [if_neg h]

theorem availabilityBulkCreate_rows (rows : List AvailabilityInsert) (db : DB) :
    (availabilityBulkCreate db rows).availabilities.length =
      db.availabilities.length + rows.length ∧
    ∀ r ∈ (availabilityBulkCreate db rows).availabilities,
      r ∈ db.availabilities ∨ ∃ i, i ∈ rows ∧ r.application_status = "unhandled" ∧
        r.version_number = i.version_number := by
  induction rows generalizing db with
  | nil =>
    constructor
    · simp [availabilityBulkCreate]
    · intro r hr
      exact Or.inl hr
  | cons a rows ih =>
    have hstep : availabilityBulkCreate db (a :: rows) =
        availabilityBulkCreate
          { db with
            availabilities := db.availabilities ++
              [{ availability_id := db.nextAvailabilityId, person_id := a.person_id,
                 from_date := a.from_date, to_date := a.to_date,
                 application_status := "unhandled", version_number := a.version_number }],
            nextAvailabilityId := db.nextAvailabilityId + 1 } rows := rfl
    rw [hstep]
    rcases ih { db with
        availabilities := db.availabilities ++
          [{ availability_id := db.nextAvailabilityId, person_id := a.person_id,
             from_date := a.from_date, to_date := a.to_date,
             application_status := "unhandled", version_number := a.version_number }],
        nextAvailabilityId := db.nextAvailabilityId + 1 } with ⟨h1, h2⟩
    constructor
    · rw [h1]
      dsimp only
      simp only [List.length_append, List.length_cons, List.length_nil]
      omega
    · intro r hr
      rcases h2 r hr with hmem | ⟨i, hi, hst, hv⟩
      · rcases List.mem_append.mp hmem with h3 | h3
        · exact Or.inl h3
        · have h4 := List.mem_singleton.mp h3
          refine Or.inr ⟨a, List.mem_cons_self a rows, ?_, ?_⟩
          · rw [h4]
          · rw [h4]
      · exact Or.inr ⟨i, List.mem_cons_of_mem a hi, hst, hv⟩

/-- Inserting the availability rows of a submission (one per period, each carrying
version_number 0) appends exactly one row per period, each created "unhandled". -/
theorem availabilityBulkCreate_of_inserts (db t2 : DB) (person_id : Nat)
    (periods : List Period) (hav : t2.availabilities = db.availabilities) :
    (availabilityBulkCreate t2 (periods.map (fun p =>
        ({ person_id := person_id, from_date := p.from_date, to_date := p.to_date,
           version_number := 0 } : AvailabilityInsert)))).availabilities.length =
      db.availabilities.length + periods.length ∧
    ∀ r ∈ (availabilityBulkCreate t2 (periods.map (fun p =>
        ({ person_id := person_id, from_date := p.from_date, to_date := p.to_date,
           version_number := 0 } : AvailabilityInsert)))).availabilities,
      r ∈ db.availabilities ∨
        (r.version_number = 0 ∧ r.application_status = "unhandled") := by
  rcases availabilityBulkCreate_rows (periods.map (fun p =>
      ({ person_id := person_id, from_date := p.from_date, to_date := p.to_date,
         version_number := 0 } : AvailabilityInsert))) t2 with ⟨hl, hm⟩
  constructor
  · rw [hl, hav, List.length_map]
  · intro r hr
    rcases hm r hr with hmem | ⟨i, hi, hst, hv⟩
    · rw [hav] at hmem
      exact Or.inl hmem
    · rcases List.mem_map.mp hi with ⟨p, -, hp⟩
      refine Or.inr ⟨?_, hst⟩
      rw [hv, ← hp]

/-- C7: every availability row inserted by a successful `submitApplication` call is
created with version_number = 0 (set at part_000 line 240) and the initial status
"unhandled" (the table default of the Availability model): the new state has exactly one
more availability row per submitted period, and every row of the new state is either an
old row or has version_number 0 and status "unhandled". -/
theorem C7_inserted_availabilities_version_zero_unhandled (db db2 : DB)
    (username : String) (competencies : List Competency) (periods : List Period)
    (updOk : Nat → Bool)
    (h : submitApplication db username competencies periods updOk =
      (db2, .ok "success")) :
    db2.availabilities.length = db.availabilities.length + periods.length ∧
    ∀ r ∈ db2.availabilities, r ∈ db.availabilities ∨
      (r.version_number = 0 ∧ r.application_status = "unhandled") := by
  unfold submitApplication at h
  cases hf : findPersonByUsername db username with
  | error e =>
    rw [hf] at h
    exact absurd h (by simp)
  | ok po =>
    cases po with
    | none =>
      rw [hf] at h
      exact absurd h (by simp)
    | some person =>
      rw [hf] at h
      dsimp only at h
      injection h with h1 h2
      subst h1
      exact availabilityBulkCreate_of_inserts db _ person.person_id periods
        ((updateLoop_preserves_availabilities _ _ _).1.trans
          (competenceProfileBulkCreate_preserves_availabilities _ _).1)

/-- C7 at a concrete input: alice submits one competency and one period; the inserted
availability row has version 0 and status "unhandled". -/
theorem C7_concrete :
    submitApplication dbJustAlice "alice" [⟨3, 2⟩] [⟨"2024-01-01", "2024-01-10"⟩]
        (fun _ => true) = (dbAliceSubmitted, .ok "success") ∧
    (dbAliceSubmitted.availabilities.length = dbJustAlice.availabilities.length + 1 ∧
     ∀ r ∈ dbAliceSubmitted.availabilities, r ∈ dbJustAlice.availabilities ∨
       (r.version_number = 0 ∧ r.application_status = "unhandled")) :=
  ⟨by decide,
    C7_inserted_availabilities_version_zero_unhandled dbJustAlice dbAliceSubmitted
      "alice" [⟨3, 2⟩] [⟨"2024-01-01", "2024-01-10"⟩] (fun _ => true) (by decide)⟩

/-- C8: `savePerson` persists every person with the applicant role: the saved row always
has role_id = 2, and the result of the call does not depend on any caller-supplied
role_id (the spread overrides it). -/
theorem C8_savePerson_forces_applicant_role (db : DB) (person : PersonInput) :
    (∀ r : Option Nat, savePerson db { person with role_id := r } = savePerson db person) ∧
    ∀ row ∈ (savePerson db person).1.persons, row ∈ db.persons ∨ row.role_id = 2 := by
  constructor
  · intro r
    cases person
    rfl
  · intro row hrow
    unfold savePerson at hrow
    by_cases h : db.persons.any (fun p =>
        p.username == person.username || p.email == person.email) = true
    · rw [if_pos h] at hrow
      exact Or.inl hrow
    · rw [if_neg h] at hrow
      dsimp only at hrow
      rcases List.mem_append.mp hrow with h1 | h2
      · exact Or.inl h1
      · right
        rw [List.mem_singleton.mp h2]

/-- C9 fails on the code: `findPersonIdByAuth` leaks bare runtime errors instead of one
wrapped taxonomy error: with neither username nor email present, line 146 evaluates the
undefined identifier `error` and throws a bare ReferenceError (no operation prefix); with
a username that matches no person, destructuring the null lookup result throws a bare
TypeError (the method has no try/catch). -/
theorem C9_counterexample_unwrapped_errors :
    findPersonIdByAuth dbEmpty { username := none, email := none } =
      .error (.referenceError "error is not defined") ∧
    findPersonIdByAuth dbEmpty { username := some "ghost", email := none } =
      .error (.typeError "Cannot destructure property person_id of null") := by
  decide

/-- C10: `login` returns null exactly when no person matches the username+password pair,
and on a match it returns the projection holding only the matched person's username,
email and role_id (the query's attributes clause; the LoginDto carries no password, ssn,
name or surname field at all). -/
theorem C10_login_exact_match_projection (db : DB) (u pw : String) :
    (login db u pw = none ↔ ∀ p ∈ db.persons, ¬(p.username = u ∧ p.password = pw)) ∧
    ∀ dto, login db u pw = some dto →
      ∃ p, p ∈ db.persons ∧ p.username = u ∧ p.password = pw ∧
        dto = { username := p.username, email := p.email, role_id := p.role_id } := by
  unfold login
  cases hfind : db.persons.find? (fun p => p.username == u && p.password == pw) with
  | none =>
    rw [List.find?_eq_none] at hfind
    constructor
    · constructor
      · intro _ p hp hand
        have hcontra := hfind p hp
        simp [hand.1, hand.2] at hcontra
      · intro _
        rfl
    · intro dto hdto
      exact absurd hdto (by simp)
  | some q =>
    have hq := List.find?_some hfind
    have hmem := List.mem_of_find?_eq_some hfind
    simp only [Bool.and_eq_true, beq_iff_eq] at hq
    constructor
    · constructor
      · intro hcontra
        exact absurd hcontra (by simp)
      · intro hall
        exact absurd ⟨hq.1, hq.2⟩ (hall q hmem)
    · intro dto hdto
      refine ⟨q, hmem, hq.1, hq.2, ?_⟩
      dsimp only at hdto
      injection hdto with hd
      exact hd.symm
